import Mathlib

/-!
# tiny-container: a verification development

Shallow embedding of `tinyContainer.go` (the Launcher `createContainer`, the
in-namespace Initializer `runShell`, the root pivot sequencer `pivotRoot`, the
role dispatch in `main`) together with the parts of the Go standard library
the program relies on (`flag`, `path/filepath`, `os/exec`).

The operating system is an explicit parameter (`World`): every kernel call
asks the world for its outcome, and every call a process performs is recorded
in a trace of `Op`s.  Output written with `fmt.Printf` / `fmt.Println` is
recorded as the list of written strings.
-/

namespace TinyContainer

/-! ## Strings and paths (Go `path/filepath`, Unix flavour) -/

/-- The path separator of `path/filepath` on Linux. -/
def Separator : Char := '/'

/-- Split a path at every separator (the pieces between separators, in order). -/
def splitSep : List Char → List (List Char)
  | [] => [[]]
  | c :: cs =>
    if c = Separator then [] :: splitSep cs
    else
      match splitSep cs with
      | [] => [[c]]
      | p :: ps => (c :: p) :: ps

/-- One step of `filepath.Clean`: process the next path element against the
elements written so far (kept in reverse order). -/
def cleanStep (rooted : Bool) (out : List (List Char)) (elem : List Char) : List (List Char) :=
  if elem = [] then out                       -- empty path element
  else if elem = ['.'] then out               -- . element
  else if elem = ['.', '.'] then              -- .. element
    match out with
    | [] => if rooted then [] else [elem]
    | top :: rest => if top = ['.', '.'] then elem :: out else rest
  else elem :: out                            -- real path element

/-- Go `filepath.Clean` on Linux: the shortest path name equivalent to `path`
by purely lexical processing. -/
def filepathClean (path : String) : String :=
  if path.data = [] then "."
  else
    let rooted := path.data.head? = some Separator
    let elems := ((splitSep path.data).foldl (cleanStep rooted) []).reverse
    let body := List.intercalate [Separator] elems
    if rooted then String.mk (Separator :: body)
    else if body = [] then "." else String.mk body

/-- Go `filepath.Join` on Linux for two elements: empty elements are ignored,
the rest are joined with the separator and the result is cleaned. -/
def filepathJoin (a b : String) : String :=
  if a ≠ "" then filepathClean (a ++ "/" ++ b)
  else if b ≠ "" then filepathClean b
  else ""

/-- Go `filepath.Base` on Linux: the last element of the path. -/
def filepathBase (path : String) : String :=
  if path.data = [] then "."
  else
    let stripped := (path.data.reverse.dropWhile (· = Separator))
    let last := (stripped.takeWhile (· ≠ Separator)).reverse
    if last = [] then "/" else String.mk last

deriving instance DecidableEq for Except

/-! ## Command line flags (Go `flag`, the three string flags of `init`) -/

/-- The package-level variables `root`, `shell`, `xaction`. -/
structure Flags where
  root : String
  shell : String
  xaction : String
  deriving DecidableEq, Repr

/-- The defaults registered by `init` with `flag.StringVar`. -/
def Flags.defaults : Flags := { root := "", shell := "", xaction := "create" }

/-- Assignment `flag.Value.Set` through the table of defined flags; `none`
when no flag of that name is defined. -/
def Flags.set (f : Flags) (name value : String) : Option Flags :=
  if name = "root" then some { f with root := value }
  else if name = "shell" then some { f with shell := value }
  else if name = "x-action" then some { f with xaction := value }
  else none

/-- The errors of `FlagSet.Parse`. -/
inductive ParseError
  | help
  | fail (msg : String)
  deriving DecidableEq, Repr

/-- How `parseOne` reads a single argument. -/
inductive ArgKind
  | nonFlag
  | terminator
  | badSyntax
  | flag (name : String) (value : Option String)
  deriving DecidableEq, Repr

/-- Split a list of characters at its first `=`: the part before it and,
when there is one, the part after it. -/
def splitAtEq : List Char → List Char × Option (List Char)
  | [] => ([], none)
  | c :: cs =>
    if c = '=' then ([], some cs)
    else ((c :: (splitAtEq cs).1), (splitAtEq cs).2)

/-- Split `name[=value]` at the first `=` that is not the first character. -/
def splitNameValue : List Char → String × Option String
  | [] => ("", none)
  | c :: rest => (String.mk (c :: (splitAtEq rest).1), (splitAtEq rest).2.map String.mk)

/-- The part of `parseOne` after the leading minus signs were removed. -/
def flagOfName (name : List Char) : ArgKind :=
  match name with
  | [] => .badSyntax
  | c :: _ =>
    if c = '-' ∨ c = '=' then .badSyntax
    else .flag (splitNameValue name).1 (splitNameValue name).2

/-- The syntactic part of `parseOne`. -/
def classifyArg (s : List Char) : ArgKind :=
  match s with
  | [] => .nonFlag
  | [_] => .nonFlag
  | c0 :: c1 :: rest =>
    if c0 ≠ '-' then .nonFlag
    else if c1 = '-' then
      (if rest = [] then .terminator else flagOfName rest)
    else flagOfName (c1 :: rest)

/-- The error for a flag name that is not defined. -/
def undefinedFlag (name : String) : ParseError :=
  if name = "help" ∨ name = "h" then .help
  else .fail ("flag provided but not defined: -" ++ name)

/-- Go `FlagSet.Parse`: `parseOne` repeated until a non-flag argument, the
terminator `--`, the end of the list, or an error. -/
def parseArgs : List String → Flags → Except ParseError Flags
  | [], f => .ok f
  | s :: rest, f =>
    match classifyArg s.data with
    | .nonFlag => .ok f
    | .terminator => .ok f
    | .badSyntax => .error (.fail ("bad flag syntax: " ++ s))
    | .flag name (some v) =>
      match f.set name v with
      | none => .error (undefinedFlag name)
      | some g => parseArgs rest g
    | .flag name none =>
      match f.set name "" with
      | none => .error (undefinedFlag name)
      | some _ =>
        match rest with
        | [] => .error (.fail ("flag needs an argument: -" ++ name))
        | v :: more =>
          match f.set name v with
          | none => .error (undefinedFlag name)
          | some g => parseArgs more g

/-- Go `flag.Parse()` as called by `init`: parse `os.Args[1:]` into the
package-level variables, starting from the defaults. -/
def flagParse (osArgs : List String) : Except ParseError Flags :=
  parseArgs osArgs.tail Flags.defaults

/-! ## The operating system -/

/-- Go `syscall.SysProcIDMap`. -/
structure SysProcIDMap where
  ContainerID : Int
  HostID : Int
  Size : Int
  deriving DecidableEq, Repr

/-- Go `syscall.SysProcAttr`, the fields the program sets. -/
structure SysProcAttr where
  Cloneflags : Nat
  UidMappings : List SysProcIDMap
  GidMappings : List SysProcIDMap
  deriving DecidableEq, Repr

/-- The namespace flags of Go `syscall` on Linux. -/
def CLONE_NEWNS : Nat := 0x20000
def CLONE_NEWUTS : Nat := 0x4000000
def CLONE_NEWIPC : Nat := 0x8000000
def CLONE_NEWUSER : Nat := 0x10000000
def CLONE_NEWPID : Nat := 0x20000000
def CLONE_NEWNET : Nat := 0x40000000

/-- The mount flags of Go `syscall` on Linux. -/
def MS_BIND : Nat := 0x1000
def MS_REC : Nat := 0x4000
def MNT_DETACH : Nat := 0x2

/-- A kernel or file-system call whose only result is `nil` or an error. -/
inductive KernelCall
  | sethostname (name : String)
  | mount (source target fstype : String) (flags : Nat) (data : String)
  | mkdirAll (path : String) (perm : Nat)
  | pivotRoot (newroot putold : String)
  | chdir (dir : String)
  | unmount (target : String) (flags : Nat)
  | removeAll (path : String)
  deriving DecidableEq, Repr

/-- An operation a process performs on the system. -/
inductive Op
  | sys (call : KernelCall)
  | lookPath (file : String)
  | startProcess (path : String) (argv : List String) (env : List String)
      (attr : Option SysProcAttr)
  deriving DecidableEq, Repr

/-- What a finished process did: exit status, what it wrote to the inherited
standard streams, the operations it performed itself and the operations its
descendants performed. -/
structure Proc where
  exit : Nat
  out : List String
  ops : List Op
  childOps : List Op
  deriving DecidableEq, Repr

/-- The environment of a run: the answers of the system to every request. -/
structure World where
  /-- Go `os.Getuid()`. -/
  uid : Int
  /-- Go `os.Environ()`. -/
  environ : List String
  /-- Go `exec.LookPath` under a given environment (it reads `PATH`): the
  resolved path, or an error. -/
  lookPath : List String → String → Except String String
  /-- The outcome of a kernel call: `none` is success (`nil`). -/
  kernel : KernelCall → Option String
  /-- Creating the child in the requested namespaces: `none` is success. -/
  clone : Option SysProcAttr → Option String
  /-- Starting the target (path, argv, environment) and waiting for it: an
  error when it cannot be started, else its exit status and its output. -/
  target : String → List String → List String → Except String (Nat × List String)

/-! ## `os/exec` -/

/-- Go `exec.Cmd`, the fields the program uses (the standard streams are
always the caller's). -/
structure Cmd where
  Path : String
  Args : List String
  Env : Option (List String)
  SysProcAttr : Option TinyContainer.SysProcAttr
  Err : Option String
  deriving DecidableEq, Repr

/-- Go `exec.Command`: when the name has no path separator it is resolved with
`LookPath` at once; a failure is stored and reported by `Run`. Returns the
command and the operations performed. -/
def execCommand (w : World) (name : String) (args : List String) : Cmd × List Op :=
  let cmd : Cmd := { Path := name, Args := name :: args, Env := none,
                     SysProcAttr := none, Err := none }
  if filepathBase name = name then
    match w.lookPath w.environ name with
    | .ok lp => ({ cmd with Path := lp }, [Op.lookPath name])
    | .error e => ({ cmd with Err := some e }, [Op.lookPath name])
  else (cmd, [])

/-- The result of `Cmd.Run`. -/
structure RunResult where
  err : Option String
  out : List String
  ops : List Op
  childOps : List Op
  deriving DecidableEq, Repr

/-- Go `Cmd.Run`: start the command and wait for it. `started` is the answer
of the system to the start request. The error is `nil` exactly when the
command ran and exited with status 0. -/
def Cmd.Run (environ : List String) (c : Cmd) (started : Except String Proc) : RunResult :=
  match c.Err with
  | some e => { err := some e, out := [], ops := [], childOps := [] }
  | none =>
    let op := Op.startProcess c.Path c.Args (c.Env.getD environ) c.SysProcAttr
    match started with
    | .error e => { err := some e, out := [], ops := [op], childOps := [] }
    | .ok p =>
      { err := if p.exit = 0 then none else some ("exit status " ++ toString p.exit),
        out := p.out, ops := [op], childOps := p.ops ++ p.childOps }

/-! ## The program (`tinyContainer.go`) -/

/-- What a call of one of the program's functions did. `exit` is `some n`
when the function ended the process with `os.Exit(n)` and `none` when it
returned to its caller. -/
structure Result where
  exit : Option Nat
  out : List String
  ops : List Op
  childOps : List Op
  deriving DecidableEq, Repr

/-- The process result of a `main` that calls `os.Exit(code)` when the
function returns. -/
def Result.thenExit (r : Result) (code : Nat) : Proc :=
  { exit := r.exit.getD code, out := r.out, ops := r.ops, childOps := r.childOps }

/-- Go `flag.PrintDefaults()` for the three flags of `init`. -/
def flagDefaults : List String :=
  ["  -root string\n    \tFull path of directory to mount as root in the container. Required.\n",
   "  -shell string\n    \tPath to shell program to run (relative to root once mounted). Required.\n",
   "  -x-action string\n    \tUsed internally. Please ignore. (default \"create\")\n"]

/-- The output of `printHelp`. -/
def printHelp : List String :=
  ["tinyContainer (tc) parameters:\n"] ++ flagDefaults ++
  ["\n", "Example:\n", "\n", "  $ pwd\n", "  /root/tiny-container\n",
   "  $ ./tc -root=/root/tiny-container -shell=/ts\n", "\n"]

/-- The function `pivotRoot`: the error it returns and the calls it made. -/
def pivotRoot (w : World) (newRoot : String) : Option String × List Op :=
  let putold := filepathJoin newRoot "/.pivot_root"
  let c1 := KernelCall.mount newRoot newRoot "" (MS_BIND ||| MS_REC) ""
  match w.kernel c1 with
  | some err => (some err, [.sys c1])
  | none =>
  let c2 := KernelCall.mkdirAll putold 0o700
  match w.kernel c2 with
  | some err => (some err, [.sys c1, .sys c2])
  | none =>
  let c3 := KernelCall.pivotRoot newRoot putold
  match w.kernel c3 with
  | some err => (some err, [.sys c1, .sys c2, .sys c3])
  | none =>
  let c4 := KernelCall.chdir "/"
  match w.kernel c4 with
  | some err => (some err, [.sys c1, .sys c2, .sys c3, .sys c4])
  | none =>
  let putold := "/.pivot_root"
  let c5 := KernelCall.unmount putold MNT_DETACH
  match w.kernel c5 with
  | some err => (some err, [.sys c1, .sys c2, .sys c3, .sys c4, .sys c5])
  | none =>
  let c6 := KernelCall.removeAll putold
  match w.kernel c6 with
  | some err => (some err, [.sys c1, .sys c2, .sys c3, .sys c4, .sys c5, .sys c6])
  | none => (none, [.sys c1, .sys c2, .sys c3, .sys c4, .sys c5, .sys c6])

/-- The function `runShell` (the Initializer). -/
def runShell (w : World) (root shell : String) : Result :=
  let out0 := ["Launching shell session...\n", "\troot.: " ++ root ++ "\n",
               "\tshell: " ++ shell ++ "\n"]
  let (cmd0, ops0) := execCommand w shell []
  let cmd := { cmd0 with Env := some ["tiny_demo=something tiny"] }
  -- Set the hostname
  let hostCall := KernelCall.sethostname "tinyhost"
  let out1 := match w.kernel hostCall with
    | some err => out0 ++ ["Error setting hostname - " ++ err ++ "\n"]
    | none => out0
  let ops1 := ops0 ++ [.sys hostCall]
  -- Pivot to our new root folder
  match pivotRoot w root with
  | (some err, pops) =>
    { exit := some 1, out := out1 ++ ["Error running pivot_root - " ++ err ++ "\n"],
      ops := ops1 ++ pops, childOps := [] }
  | (none, pops) =>
    -- Launch the new shell session
    let env := cmd.Env.getD w.environ
    let started := (w.target cmd.Path cmd.Args env).map
      (fun (p : Nat × List String) => ({ exit := p.1, out := p.2, ops := [], childOps := [] } : Proc))
    let r := cmd.Run w.environ started
    match r.err with
    | some err =>
      { exit := some 1,
        out := out1 ++ r.out ++ ["Error running the shell " ++ shell ++ " - " ++ err ++ "\n"],
        ops := ops1 ++ pops ++ r.ops, childOps := r.childOps }
    | none =>
      { exit := none, out := out1 ++ r.out ++ ["Exited shell session\n"],
        ops := ops1 ++ pops ++ r.ops, childOps := r.childOps }

/-- The function `createContainer` (the Launcher). `selfExe argv` is the run
of `/proc/self/exe`, this very program, on the argument vector `argv`
(`none` when the model is out of fuel). -/
def createContainer (selfExe : List String → Option Proc) (w : World)
    (root shell : String) : Option Result :=
  let out0 := ["Creating container...\n"]
  let args := ["-root=" ++ root, "-shell=" ++ shell, "-x-action=launch-shell"]
  let (cmd0, ops0) := execCommand w "/proc/self/exe" args
  let flags := CLONE_NEWNS ||| CLONE_NEWUTS ||| CLONE_NEWIPC ||| CLONE_NEWPID |||
    CLONE_NEWNET ||| CLONE_NEWUSER
  let cmd := { cmd0 with SysProcAttr := some {
      Cloneflags := flags,
      UidMappings := [{ ContainerID := 0, HostID := w.uid, Size := 1 }],
      GidMappings := [{ ContainerID := 0, HostID := w.uid, Size := 1 }] } }
  let started : Option (Except String Proc) :=
    match w.clone cmd.SysProcAttr with
    | some err => some (.error err)
    | none => (selfExe cmd.Args).map .ok
  started.map fun st =>
    let r := cmd.Run w.environ st
    match r.err with
    | some err =>
      { exit := some 1,
        out := out0 ++ r.out ++ ["Error running the /proc/self/exe container - " ++ err ++ "\n"],
        ops := ops0 ++ r.ops, childOps := r.childOps }
    | none =>
      { exit := none, out := out0 ++ r.out ++ ["Exited container\n"],
        ops := ops0 ++ r.ops, childOps := r.childOps }

/-- The function `main`, on the parsed flags. -/
def main (selfExe : List String → Option Proc) (w : World) (f : Flags) : Option Proc :=
  -- Root and shell are required args
  if f.root = "" ∨ f.shell = "" then
    some { exit := 1, out := printHelp, ops := [], childOps := [] }
  else if f.xaction = "create" then
    (createContainer selfExe w f.root f.shell).map (fun r => r.thenExit 0)
  else if f.xaction = "launch-shell" then
    some ((runShell w f.root f.shell).thenExit 0)
  else
    some { exit := 1, out := printHelp, ops := [], childOps := [] }

/-- The whole program on an argument vector `os.Args`: `init` parses the
flags (`flag.Parse` exits with 0 on `-h` and with 2 on any other error),
then `main` runs. The fuel bounds the depth of re-invocation of the binary;
`none` means out of fuel. -/
def runProgram : Nat → World → List String → Option Proc
  | 0, _, _ => none
  | fuel + 1, w, osArgs =>
    match flagParse osArgs with
    | .error .help =>
      some { exit := 0, out := ("Usage of " ++ osArgs.headD "" ++ ":\n") :: flagDefaults,
             ops := [], childOps := [] }
    | .error (.fail msg) =>
      some { exit := 2,
             out := (msg ++ "\n") :: ("Usage of " ++ osArgs.headD "" ++ ":\n") :: flagDefaults,
             ops := [], childOps := [] }
    | .ok f => main (runProgram fuel w) w f

/-! ## Specification-side definitions and example worlds -/

/-- The fixed sequence of the six pivot steps for a new root, as the
specification lists them: recursive bind mount of the root onto itself,
creation of the staging directory, pivot_root, chdir to the new root, detach
unmount of the staging directory, removal of the staging directory. -/
def pivotSequence (newRoot : String) : List KernelCall :=
  [ KernelCall.mount newRoot newRoot "" (MS_BIND ||| MS_REC) "",
    KernelCall.mkdirAll (filepathJoin newRoot "/.pivot_root") 0o700,
    KernelCall.pivotRoot newRoot (filepathJoin newRoot "/.pivot_root"),
    KernelCall.chdir "/",
    KernelCall.unmount "/.pivot_root" MNT_DETACH,
    KernelCall.removeAll "/.pivot_root" ]

/-- The number of steps at the head of a sequence that succeed in a world,
that is the position of the first failing step (the length of the sequence
when no step fails). -/
def firstFailure (w : World) (steps : List KernelCall) : Nat :=
  (steps.takeWhile (fun c => (w.kernel c).isNone)).length

/-- The same world, except that setting the hostname succeeds. -/
def World.withHostnameOk (w : World) : World :=
  { w with kernel := fun c => if c = KernelCall.sethostname "tinyhost" then none else w.kernel c }

/-- A world for examples: user 1000, a host environment of two variables, a
host `PATH` on which no bare name is found, every kernel call and the spawn
succeeding, and a target that writes one line and exits with status `n`. -/
def exitWorld (n : Nat) : World :=
  { uid := 1000
    environ := ["PATH=/usr/bin", "HOME=/home/u"]
    lookPath := fun _ name =>
      .error ("exec: \"" ++ name ++ "\": executable file not found in $PATH")
    kernel := fun _ => none
    clone := fun _ => none
    target := fun _ _ _ => .ok (n, ["hello\n"]) }

/-- A world in which the bind mount of the new root is refused and every
other request succeeds. -/
def mountDeniedWorld : World :=
  { exitWorld 0 with
    kernel := fun c =>
      match c with
      | .mount _ _ _ _ _ => some "operation not permitted"
      | _ => none }

/-- A world in which setting the hostname is refused and every other request
succeeds; the target exits with status 0. -/
def hostnameDeniedWorld : World :=
  { exitWorld 0 with
    kernel := fun c =>
      match c with
      | .sethostname _ => some "operation not permitted"
      | _ => none }

/-- The environments handed to the processes started in a trace. -/
def startedEnvs : List Op → List (List String)
  | [] => []
  | Op.startProcess _ _ env _ :: rest => env :: startedEnvs rest
  | _ :: rest => startedEnvs rest

/-- The child process of the Launcher: the run of the re-invoked binary. -/
def childProc (w : World) (root shell : String) : Proc :=
  if root = "" ∨ shell = "" then { exit := 1, out := printHelp, ops := [], childOps := [] }
  else (runShell w root shell).thenExit 0

/-- The process attributes `createContainer` puts in its spawn request. -/
def spawnAttr (w : World) : SysProcAttr :=
  { Cloneflags := CLONE_NEWNS ||| CLONE_NEWUTS ||| CLONE_NEWIPC ||| CLONE_NEWPID |||
      CLONE_NEWNET ||| CLONE_NEWUSER
    UidMappings := [{ ContainerID := 0, HostID := w.uid, Size := 1 }]
    GidMappings := [{ ContainerID := 0, HostID := w.uid, Size := 1 }] }

/-- The spawn request of the Launcher, as recorded in the trace. -/
def spawnOp (w : World) (root shell : String) : Op :=
  Op.startProcess "/proc/self/exe"
    ["/proc/self/exe", "-root=" ++ root, "-shell=" ++ shell, "-x-action=launch-shell"]
    w.environ
    (some (spawnAttr w))

/-! ## Auxiliary lemmas -/

theorem classify_root (root : String) :
    classifyArg ("-root=" ++ root).data = .flag "root" (some root) := by
  have h : ("-root=" ++ root).data = '-' :: 'r' :: 'o' :: 'o' :: 't' :: '=' :: root.data := by
    rw [String.data_append]; rfl
  rw [h]
  simp [classifyArg, flagOfName, splitNameValue, splitAtEq]

theorem classify_shell (shell : String) :
    classifyArg ("-shell=" ++ shell).data = .flag "shell" (some shell) := by
  have h : ("-shell=" ++ shell).data
      = '-' :: 's' :: 'h' :: 'e' :: 'l' :: 'l' :: '=' :: shell.data := by
    rw [String.data_append]; rfl
  rw [h]
  simp [classifyArg, flagOfName, splitNameValue, splitAtEq]

theorem classify_launch :
    classifyArg ("-x-action=launch-shell").data = .flag "x-action" (some "launch-shell") := by
  decide

/-- The argument vector built by `createContainer` parses back to the same
root and shell with the Initializer role. -/
theorem flagParse_childArgs (argv0 root shell : String) :
    flagParse [argv0, "-root=" ++ root, "-shell=" ++ shell, "-x-action=launch-shell"]
      = .ok { root := root, shell := shell, xaction := "launch-shell" } := by
  simp only [flagParse, List.tail_cons, parseArgs, classify_root, classify_shell, classify_launch]
  rfl

/-- `/proc/self/exe` has a path separator: `exec.Command` does not look it up. -/
theorem execCommand_selfExe (w : World) (args : List String) :
    execCommand w "/proc/self/exe" args
      = ({ Path := "/proc/self/exe", Args := "/proc/self/exe" :: args, Env := none,
           SysProcAttr := none, Err := none }, []) := by
  have h : ¬ filepathBase "/proc/self/exe" = "/proc/self/exe" := by decide
  simp [execCommand, h]

/-- The re-invoked binary, given the arguments of `createContainer`, is `main`
in the Initializer role (or the help path when an argument is empty). -/
theorem runProgram_childArgs (fuel : Nat) (w : World) (root shell : String) :
    runProgram (fuel + 1) w
        ["/proc/self/exe", "-root=" ++ root, "-shell=" ++ shell, "-x-action=launch-shell"]
      = some (if root = "" ∨ shell = "" then
                { exit := 1, out := printHelp, ops := [], childOps := [] }
              else (runShell w root shell).thenExit 0) := by
  have hx : ¬ ("launch-shell" = "create") := by decide
  simp only [runProgram, flagParse_childArgs, main]
  split <;> simp [hx]

/-- With fuel for one re-invocation the Launcher returns a result, and the only
operation it performs itself is the spawn request. -/
theorem createContainer_spawn (fuel : Nat) (w : World) (root shell : String) :
    ∃ r, createContainer (runProgram (fuel + 1) w) w root shell = some r
      ∧ r.ops = [spawnOp w root shell] := by
  simp only [createContainer, execCommand_selfExe, runProgram_childArgs]
  cases hc : w.clone _ with
  | some e => simp [Cmd.Run, spawnOp, spawnAttr]
  | none =>
    simp only [Option.map_some', Cmd.Run]
    split <;> simp [spawnOp, spawnAttr]

/-- The six namespace flags set exactly the bits 17, 26, 27, 28, 29 and 30. -/
theorem cloneflags_bits (i : Nat) :
    (CLONE_NEWNS ||| CLONE_NEWUTS ||| CLONE_NEWIPC ||| CLONE_NEWPID ||| CLONE_NEWNET |||
        CLONE_NEWUSER).testBit i = true
      ↔ i = 17 ∨ i = 26 ∨ i = 27 ∨ i = 28 ∨ i = 29 ∨ i = 30 := by
  have hv : (CLONE_NEWNS ||| CLONE_NEWUTS ||| CLONE_NEWIPC ||| CLONE_NEWPID ||| CLONE_NEWNET |||
        CLONE_NEWUSER) = 2080505856 := by decide
  rw [hv]
  by_cases hi : i < 31
  · interval_cases i <;> decide
  · have hlt : 2080505856 < 2 ^ i :=
      lt_of_lt_of_le (by norm_num : 2080505856 < 2 ^ 31)
        (Nat.pow_le_pow_right (by norm_num) (by omega))
    rw [Nat.testBit_lt_two_pow hlt]
    constructor
    · intro h; cases h
    · intro h; omega

/-- The operations of `pivotRoot` are an initial part of the pivot sequence. -/
theorem pivotRoot_ops_take (w : World) (newRoot : String) :
    ∃ k, (pivotRoot w newRoot).2 = ((pivotSequence newRoot).take k).map Op.sys := by
  simp only [pivotRoot]
  repeat' split
  · exact ⟨1, rfl⟩
  · exact ⟨2, rfl⟩
  · exact ⟨3, rfl⟩
  · exact ⟨4, rfl⟩
  · exact ⟨5, rfl⟩
  · exact ⟨6, rfl⟩
  · exact ⟨6, rfl⟩

/-- Every operation of `pivotRoot` is a kernel call. -/
theorem pivotRoot_ops_sys (w : World) (newRoot : String) :
    ∀ op ∈ (pivotRoot w newRoot).2, ∃ c, op = Op.sys c := by
  obtain ⟨k, hk⟩ := pivotRoot_ops_take w newRoot
  intro op hop
  rw [hk, List.mem_map] at hop
  obtain ⟨c, _, hc⟩ := hop
  exact ⟨c, hc.symm⟩

/-- The outcome of `pivotRoot` does not depend on the hostname call. -/
theorem pivotRoot_withHostnameOk (w : World) (newRoot : String) :
    pivotRoot w.withHostnameOk newRoot = pivotRoot w newRoot := by
  simp [pivotRoot, World.withHostnameOk]

/-- Building the command does not depend on the hostname call. -/
theorem execCommand_withHostnameOk (w : World) (name : String) (args : List String) :
    execCommand w.withHostnameOk name args = execCommand w name args := rfl

/-- Every operation of `exec.Command` is a path lookup. -/
theorem execCommand_ops (w : World) (name : String) (args : List String) :
    (execCommand w name args).2 = [] ∨ (execCommand w name args).2 = [Op.lookPath name] := by
  unfold execCommand
  split
  · split <;> simp
  · simp

/-- The operations of `runShell`, in order: the lookup made by `exec.Command`
(if any), the hostname call, the calls of `pivotRoot`, and, when the pivot
succeeded and the command carries no lookup error, the start of the target. -/
theorem runShell_ops (w : World) (root shell : String) :
    (runShell w root shell).ops
      = (execCommand w shell []).2 ++ [Op.sys (KernelCall.sethostname "tinyhost")]
        ++ (pivotRoot w root).2
        ++ (if (pivotRoot w root).1 = none ∧ (execCommand w shell []).1.Err = none then
              [Op.startProcess (execCommand w shell []).1.Path (execCommand w shell []).1.Args
                ["tiny_demo=something tiny"] none]
            else []) := by
  have hattr : (execCommand w shell []).1.SysProcAttr = none := by
    unfold execCommand; split
    · split <;> rfl
    · rfl
  rcases hp : pivotRoot w root with ⟨_ | err, pops⟩
  · rcases he : (execCommand w shell []).1.Err with _ | e
    · rcases ht : w.target (execCommand w shell []).1.Path (execCommand w shell []).1.Args
          ["tiny_demo=something tiny"] with e2 | ⟨n, o⟩
      · simp [runShell, hp, he, ht, Cmd.Run, Except.map, hattr]
      · by_cases hn : n = 0
        · simp [runShell, hp, he, ht, Cmd.Run, Except.map, hattr, hn]
        · simp [runShell, hp, he, ht, Cmd.Run, Except.map, hattr, hn]
    · simp [runShell, hp, he, Cmd.Run]
  · simp [runShell, hp]

/-- The exit of `runShell`: the process ends with status 1 when the pivot
fails, when the command carries a lookup error, when the target cannot be
started and when the target exits with a non-zero status; `runShell` returns
to `main` only when the target ran and exited with status 0. -/
theorem runShell_exit (w : World) (root shell : String) :
    (runShell w root shell).exit
      = if (pivotRoot w root).1 = none ∧ (execCommand w shell []).1.Err = none then
          match w.target (execCommand w shell []).1.Path (execCommand w shell []).1.Args
              ["tiny_demo=something tiny"] with
          | .error _ => some 1
          | .ok p => if p.1 = 0 then none else some 1
        else some 1 := by
  rcases hp : pivotRoot w root with ⟨_ | err, pops⟩
  · rcases he : (execCommand w shell []).1.Err with _ | e
    · rcases ht : w.target (execCommand w shell []).1.Path (execCommand w shell []).1.Args
          ["tiny_demo=something tiny"] with e2 | ⟨n, o⟩
      · simp [runShell, hp, he, ht, Cmd.Run, Except.map]
      · by_cases hn : n = 0
        · simp [runShell, hp, he, ht, Cmd.Run, Except.map, hn]
        · simp [runShell, hp, he, ht, Cmd.Run, Except.map, hn]
    · simp [runShell, hp, he, Cmd.Run]
  · simp [runShell, hp]

/-- The argument vector of a command built by `exec.Command`. -/
theorem execCommand_args (w : World) (name : String) (args : List String) :
    (execCommand w name args).1.Args = name :: args := by
  unfold execCommand; split
  · split <;> rfl
  · rfl

/-- The exit of the Launcher, with fuel for one re-invocation: status 1 when
the spawn fails or the child exits with a non-zero status; it returns to
`main` only when the child exited with status 0. -/
theorem createContainer_exit (fuel : Nat) (w : World) (root shell : String) :
    ∃ r, createContainer (runProgram (fuel + 1) w) w root shell = some r
      ∧ r.exit =
        match w.clone (some (spawnAttr w)) with
        | some _ => some 1
        | none => if (childProc w root shell).exit = 0 then none else some 1 := by
  simp only [createContainer, execCommand_selfExe, runProgram_childArgs, spawnAttr]
  cases hc : w.clone _ with
  | some e => simp [Cmd.Run]
  | none =>
    simp only [Option.map_some', Cmd.Run]
    by_cases h0 : (childProc w root shell).exit = 0
    · simp only [childProc] at h0
      simp [h0, childProc]
    · simp only [childProc] at h0
      simp [h0, childProc]

/-- The first line `runShell` writes. -/
theorem runShell_out_head (w : World) (root shell : String) :
    (runShell w root shell).out.head? = some "Launching shell session...\n" := by
  rcases hp : pivotRoot w root with ⟨_ | err, pops⟩
  · simp only [runShell, hp]
    split <;> split <;> simp
  · simp only [runShell, hp]
    split <;> simp

theorem startedEnvs_append (a b : List Op) :
    startedEnvs (a ++ b) = startedEnvs a ++ startedEnvs b := by
  induction a with
  | nil => rfl
  | cons op rest ih => cases op <;> simp [startedEnvs, ih]

theorem startedEnvs_of_sys (l : List Op) (h : ∀ op ∈ l, ∃ c, op = Op.sys c) :
    startedEnvs l = [] := by
  induction l with
  | nil => rfl
  | cons op rest ih =>
    obtain ⟨c, hc⟩ := h op (List.mem_cons_self _ _)
    subst hc
    simpa [startedEnvs] using ih (fun o ho => h o (List.mem_cons_of_mem _ ho))

theorem startedEnvs_execCommand (w : World) (name : String) (args : List String) :
    startedEnvs (execCommand w name args).2 = [] := by
  rcases execCommand_ops w name args with h | h <;> rw [h] <;> rfl

/-- The processes `runShell` starts get the explicit one-entry environment. -/
theorem startedEnvs_runShell (w : World) (root shell : String) :
    startedEnvs (runShell w root shell).ops
      = if (pivotRoot w root).1 = none ∧ (execCommand w shell []).1.Err = none then
          [["tiny_demo=something tiny"]] else [] := by
  rw [runShell_ops]
  simp only [startedEnvs_append, startedEnvs_execCommand,
    startedEnvs_of_sys _ (pivotRoot_ops_sys w root)]
  split <;> simp [startedEnvs]

/-- The command line of a user, with the default role, parses to that root
and shell with x-action = create. -/
theorem flagParse_userArgs (argv0 root shell : String) :
    flagParse [argv0, "-root=" ++ root, "-shell=" ++ shell]
      = .ok { root := root, shell := shell, xaction := "create" } := by
  simp only [flagParse, List.tail_cons, parseArgs, classify_root, classify_shell]
  rfl

/-! ## The claims -/

/-- C2. When root or shell is empty, whatever x-action is, `main` prints the
help text and exits with status 1 and performs no operation at all: no spawn,
sethostname, mount, mkdir, pivot_root, chdir, unmount or remove, neither itself
nor through a child. The program started without any argument does exactly
that. -/
theorem main_missing_argument (selfExe : List String → Option Proc) (w : World) (f : Flags)
    (fuel : Nat) (argv0 : String) (h : f.root = "" ∨ f.shell = "") :
    main selfExe w f = some { exit := 1, out := printHelp, ops := [], childOps := [] }
      ∧ runProgram (fuel + 1) w [argv0]
          = some { exit := 1, out := printHelp, ops := [], childOps := [] } := by
  constructor
  · simp [main, h]
  · simp [runProgram, flagParse, parseArgs, main, Flags.defaults]

theorem main_missing_argument_witness :
    main (fun _ => none) (exitWorld 0)
        { root := "", shell := "/ts", xaction := "launch-shell" }
        = some { exit := 1, out := printHelp, ops := [], childOps := [] }
      ∧ runProgram (0 + 1) (exitWorld 0)
        ["tc"] = some { exit := 1, out := printHelp, ops := [], childOps := [] } :=
  main_missing_argument _ _ _ 0 "tc" (Or.inl rfl)

/-- C6. For every invoking user id (`w.uid`), the spawn request built by
`createContainer` carries a UID mapping list and a GID mapping list of exactly
one entry each, and that entry is (ContainerID 0, HostID uid, Size 1). -/
theorem createContainer_identity_mapping (fuel : Nat) (w : World) (root shell : String) :
    ∃ r argv env attr,
      createContainer (runProgram (fuel + 1) w) w root shell = some r
      ∧ r.ops = [Op.startProcess "/proc/self/exe" argv env (some attr)]
      ∧ attr.UidMappings = [{ ContainerID := 0, HostID := w.uid, Size := 1 }]
      ∧ attr.GidMappings = [{ ContainerID := 0, HostID := w.uid, Size := 1 }]
      ∧ attr.UidMappings.length = 1 ∧ attr.GidMappings.length = 1 := by
  obtain ⟨r, hr, hops⟩ := createContainer_spawn fuel w root shell
  exact ⟨r, _, _, _, hr, hops, rfl, rfl, rfl, rfl⟩

/-- C7. `createContainer` performs exactly one operation, a single spawn
request; its clone flags are the bitwise OR of the six namespace flags mount,
UTS, IPC, PID, network and user, each of which is one bit, and no other bit is
set; the identity mappings travel in that same request; the Launcher itself
performs no mount, mkdir, pivot, remove or other kernel call. -/
theorem createContainer_single_spawn (fuel : Nat) (w : World) (root shell : String) :
    ∃ r argv env attr,
      createContainer (runProgram (fuel + 1) w) w root shell = some r
      ∧ r.ops = [Op.startProcess "/proc/self/exe" argv env (some attr)]
      ∧ attr.Cloneflags = CLONE_NEWNS ||| CLONE_NEWUTS ||| CLONE_NEWIPC ||| CLONE_NEWPID |||
          CLONE_NEWNET ||| CLONE_NEWUSER
      ∧ (CLONE_NEWNS = 2 ^ 17 ∧ CLONE_NEWUTS = 2 ^ 26 ∧ CLONE_NEWIPC = 2 ^ 27
          ∧ CLONE_NEWUSER = 2 ^ 28 ∧ CLONE_NEWPID = 2 ^ 29 ∧ CLONE_NEWNET = 2 ^ 30)
      ∧ (∀ i, attr.Cloneflags.testBit i = true
            ↔ i = 17 ∨ i = 26 ∨ i = 27 ∨ i = 28 ∨ i = 29 ∨ i = 30)
      ∧ attr.UidMappings = [{ ContainerID := 0, HostID := w.uid, Size := 1 }]
      ∧ attr.GidMappings = [{ ContainerID := 0, HostID := w.uid, Size := 1 }]
      ∧ (∀ c, Op.sys c ∉ r.ops) ∧ (∀ file, Op.lookPath file ∉ r.ops) := by
  obtain ⟨r, hr, hops⟩ := createContainer_spawn fuel w root shell
  refine ⟨r, _, _, _, hr, hops, rfl, by decide, cloneflags_bits, rfl, rfl, ?_, ?_⟩
  · intro c; rw [hops]; simp [spawnOp]
  · intro c; rw [hops]; simp [spawnOp]

/-- C3. For every new root and every assignment of success or failure to
the six steps (every world), the operations `pivotRoot` performs are exactly
the prefix of the fixed six-step sequence up to and including the first
failing step, each performed once; `pivotRoot` returns the error of that first
failing step, and returns nil exactly when all six steps succeeded. The staging
directory is `filepath.Join(newRoot, "/.pivot_root")`. -/
theorem pivotRoot_prefix (w : World) (newRoot : String) :
    (pivotRoot w newRoot).2
        = ((pivotSequence newRoot).take (firstFailure w (pivotSequence newRoot) + 1)).map Op.sys
      ∧ (pivotRoot w newRoot).1
        = ((pivotSequence newRoot).get? (firstFailure w (pivotSequence newRoot))).bind w.kernel
      ∧ ((pivotRoot w newRoot).1 = none ↔ ∀ c ∈ pivotSequence newRoot, w.kernel c = none)
      ∧ (pivotRoot w newRoot).2.Nodup
      ∧ (pivotSequence newRoot).Nodup := by
  unfold pivotRoot
  simp only [pivotSequence, firstFailure]
  rcases h1 : w.kernel (KernelCall.mount newRoot newRoot "" (MS_BIND ||| MS_REC) "") with _ | e1
  · rcases h2 : w.kernel (KernelCall.mkdirAll (filepathJoin newRoot "/.pivot_root") 0o700)
      with _ | e2
    · rcases h3 : w.kernel (KernelCall.pivotRoot newRoot (filepathJoin newRoot "/.pivot_root"))
        with _ | e3
      · rcases h4 : w.kernel (KernelCall.chdir "/") with _ | e4
        · rcases h5 : w.kernel (KernelCall.unmount "/.pivot_root" MNT_DETACH) with _ | e5
          · rcases h6 : w.kernel (KernelCall.removeAll "/.pivot_root") with _ | e6
            · simp [List.takeWhile, h1, h2, h3, h4, h5, h6]
            · simp [List.takeWhile, h1, h2, h3, h4, h5, h6]
          · simp [List.takeWhile, h1, h2, h3, h4, h5]
        · simp [List.takeWhile, h1, h2, h3, h4]
      · simp [List.takeWhile, h1, h2, h3]
    · simp [List.takeWhile, h1, h2]
  · simp [List.takeWhile, h1]

/-- C4. If `pivotRoot` returns an error, `runShell` ends the process with
status 1 (non-zero), no process is ever started (the target program does not
run) and the Initializer process as a whole (`main` in the launch-shell role)
exits with status 1. -/
theorem runShell_pivot_failure_fatal (selfExe : List String → Option Proc) (w : World)
    (root shell : String) (h : (pivotRoot w root).1 ≠ none) :
    (runShell w root shell).exit = some 1
      ∧ (∀ path argv env attr, Op.startProcess path argv env attr ∉ (runShell w root shell).ops)
      ∧ (runShell w root shell).childOps = []
      ∧ (root ≠ "" → shell ≠ "" →
          (main selfExe w { root := root, shell := shell, xaction := "launch-shell" }).map
            (fun p => p.exit) = some 1) := by
  have hsys := pivotRoot_ops_sys w root
  have hexec := execCommand_ops w shell []
  rcases hp : pivotRoot w root with ⟨_ | err, pops⟩
  · rw [hp] at h; exact absurd rfl h
  · rw [hp] at hsys
    have hrun : runShell w root shell
        = { exit := some 1,
            out := (match w.kernel (KernelCall.sethostname "tinyhost") with
                | some e => ["Launching shell session...\n", "\troot.: " ++ root ++ "\n",
                    "\tshell: " ++ shell ++ "\n"] ++ ["Error setting hostname - " ++ e ++ "\n"]
                | none => ["Launching shell session...\n", "\troot.: " ++ root ++ "\n",
                    "\tshell: " ++ shell ++ "\n"])
              ++ ["Error running pivot_root - " ++ err ++ "\n"],
            ops := (execCommand w shell []).2 ++ [Op.sys (KernelCall.sethostname "tinyhost")]
              ++ pops,
            childOps := [] } := by
      simp only [runShell, hp]
    refine ⟨by rw [hrun], ?_, by rw [hrun], ?_⟩
    · intro path argv env attr hmem
      rw [hrun] at hmem
      simp only [List.mem_append, List.mem_singleton] at hmem
      rcases hmem with (hm | hm) | hm
      · rcases hexec with he | he <;> rw [he] at hm <;> simp at hm
      · cases hm
      · obtain ⟨c, hc⟩ := hsys _ hm
        cases hc
    · intro hr hs
      have hx : ¬ ("launch-shell" = "create") := by decide
      simp [main, hr, hs, hx, hrun, Result.thenExit]

theorem runShell_pivot_failure_fatal_witness :
    (pivotRoot mountDeniedWorld "/tmp/fakeroot").1 ≠ none
      ∧ (runShell mountDeniedWorld "/tmp/fakeroot" "/bin/prog").exit = some 1
      ∧ (∀ path argv env attr, Op.startProcess path argv env attr
            ∉ (runShell mountDeniedWorld "/tmp/fakeroot" "/bin/prog").ops)
      ∧ (runShell mountDeniedWorld "/tmp/fakeroot" "/bin/prog").childOps = []
      ∧ ("/tmp/fakeroot" ≠ "" → "/bin/prog" ≠ "" →
          (main (fun _ => none) mountDeniedWorld
            { root := "/tmp/fakeroot", shell := "/bin/prog", xaction := "launch-shell" }).map
            (fun p => p.exit) = some 1) :=
  ⟨by decide, runShell_pivot_failure_fatal (fun _ => none) mountDeniedWorld "/tmp/fakeroot"
    "/bin/prog" (by decide)⟩

/-- C9. The environment `runShell` gives the target does not depend on the
inherited environment: in any two runs with the same root and shell under
different inherited environments, every process started gets the same
explicit one-entry list, and whenever the pivot succeeds and the command is
resolvable the target is started with exactly that list. -/
theorem runShell_env_hygiene (w : World) (e1 e2 : List String) (root shell : String) :
    (∀ env1 ∈ startedEnvs (runShell { w with environ := e1 } root shell).ops,
      ∀ env2 ∈ startedEnvs (runShell { w with environ := e2 } root shell).ops,
        env1 = ["tiny_demo=something tiny"] ∧ env2 = env1)
      ∧ ((pivotRoot w root).1 = none → (execCommand w shell []).1.Err = none →
          startedEnvs (runShell w root shell).ops = [["tiny_demo=something tiny"]]) := by
  constructor
  · intro env1 h1 env2 h2
    rw [startedEnvs_runShell] at h1 h2
    split at h1
    · split at h2
      · simp only [List.mem_singleton] at h1 h2
        exact ⟨h1, by rw [h1, h2]⟩
      · cases h2
    · cases h1
  · intro hp he
    rw [startedEnvs_runShell, if_pos ⟨hp, he⟩]

theorem runShell_env_hygiene_witness :
    ((∀ env1 ∈ startedEnvs (runShell { exitWorld 0 with environ := ["SECRET=1"] }
          "/tmp/fakeroot" "/bin/prog").ops,
      ∀ env2 ∈ startedEnvs (runShell { exitWorld 0 with environ := ["PATH=/bin", "A=b"] }
          "/tmp/fakeroot" "/bin/prog").ops,
        env1 = ["tiny_demo=something tiny"] ∧ env2 = env1)
      ∧ ((pivotRoot (exitWorld 0) "/tmp/fakeroot").1 = none →
          (execCommand (exitWorld 0) "/bin/prog" []).1.Err = none →
          startedEnvs (runShell (exitWorld 0) "/tmp/fakeroot" "/bin/prog").ops
            = [["tiny_demo=something tiny"]]))
      ∧ startedEnvs (runShell { exitWorld 0 with environ := ["SECRET=1"] }
          "/tmp/fakeroot" "/bin/prog").ops = [["tiny_demo=something tiny"]]
      ∧ startedEnvs (runShell { exitWorld 0 with environ := ["PATH=/bin", "A=b"] }
          "/tmp/fakeroot" "/bin/prog").ops = [["tiny_demo=something tiny"]] :=
  ⟨runShell_env_hygiene (exitWorld 0) ["SECRET=1"] ["PATH=/bin", "A=b"] "/tmp/fakeroot"
    "/bin/prog", by decide, by decide⟩

/-- A failing sethostname call changes nothing but the log. `runShell` still
performs the calls of `pivotRoot root`; compared with the run in which
sethostname succeeds, the operations, the operations of the children and the
exit are the same, and the output differs by exactly one line, the logged
hostname error, inserted after the three header lines. When the pivot succeeds
and the command built by `exec.Command` carries no lookup error, the target is
started. -/
theorem runShell_hostname_failure_nonfatal (w : World) (root shell e : String)
    (h : w.kernel (KernelCall.sethostname "tinyhost") = some e) :
    (runShell w root shell).ops = (runShell w.withHostnameOk root shell).ops
      ∧ (runShell w root shell).childOps = (runShell w.withHostnameOk root shell).childOps
      ∧ (runShell w root shell).exit = (runShell w.withHostnameOk root shell).exit
      ∧ (runShell w root shell).out
          = (runShell w.withHostnameOk root shell).out.take 3
            ++ ["Error setting hostname - " ++ e ++ "\n"]
            ++ (runShell w.withHostnameOk root shell).out.drop 3
      ∧ (pivotRoot w root).2 <:+: (runShell w root shell).ops
      ∧ ((pivotRoot w root).1 = none → (execCommand w shell []).1.Err = none →
          Op.startProcess (execCommand w shell []).1.Path [shell]
            ["tiny_demo=something tiny"] none ∈ (runShell w root shell).ops) := by
  have hk : w.withHostnameOk.kernel (KernelCall.sethostname "tinyhost") = none := by
    simp [World.withHostnameOk]
  have ht : w.withHostnameOk.target = w.target := rfl
  have hen : w.withHostnameOk.environ = w.environ := rfl
  refine ⟨?_, ?_, ?_, ?_, ?_, ?_⟩
  · rw [runShell_ops, runShell_ops, pivotRoot_withHostnameOk, execCommand_withHostnameOk]
  · simp only [runShell, pivotRoot_withHostnameOk, execCommand_withHostnameOk, ht, hen]
    rcases pivotRoot w root with ⟨_ | err, pops⟩
    · simp only
      split <;> split <;> simp_all
    · rfl
  · rw [runShell_exit, runShell_exit, pivotRoot_withHostnameOk, execCommand_withHostnameOk, ht]
  · simp only [runShell, pivotRoot_withHostnameOk, execCommand_withHostnameOk, ht, hen, hk, h]
    rcases pivotRoot w root with ⟨_ | err, pops⟩
    · simp only
      split <;> simp
    · simp
  · rw [runShell_ops]
    exact ⟨(execCommand w shell []).2 ++ [Op.sys (KernelCall.sethostname "tinyhost")], _, rfl⟩
  · intro hp he
    rw [runShell_ops, if_pos ⟨hp, he⟩, execCommand_args]
    simp

theorem runShell_hostname_failure_nonfatal_witness :
    hostnameDeniedWorld.kernel (KernelCall.sethostname "tinyhost") = some "operation not permitted"
      ∧ (runShell hostnameDeniedWorld "/tmp/fakeroot" "/bin/prog").out
          = (runShell hostnameDeniedWorld.withHostnameOk "/tmp/fakeroot" "/bin/prog").out.take 3
            ++ ["Error setting hostname - " ++ "operation not permitted" ++ "\n"]
            ++ (runShell hostnameDeniedWorld.withHostnameOk "/tmp/fakeroot" "/bin/prog").out.drop 3
      ∧ (runShell hostnameDeniedWorld "/tmp/fakeroot" "/bin/prog").exit = none :=
  ⟨by decide,
   (runShell_hostname_failure_nonfatal hostnameDeniedWorld "/tmp/fakeroot" "/bin/prog"
      "operation not permitted" (by decide)).2.2.2.1,
   by decide⟩

/-- C5, at a bare name. In the world where sethostname is refused, every
pivot step succeeds and the host `PATH` does not hold `ts`, `runShell` with
the shell `ts` goes on after the hostname error and performs the whole pivot,
but the target is never started: the trace is the host lookup, the hostname
call and the six pivot steps, no process is started, and the process exits
with status 1 after the pivot succeeded. The run in which sethostname
succeeds ends the same way, so the hostname failure is not the cause; with
the shell given as `./ts` the target is started in the same world. -/
theorem runShell_hostname_failure_bare_name :
    hostnameDeniedWorld.kernel (KernelCall.sethostname "tinyhost")
        = some "operation not permitted"
      ∧ (pivotRoot hostnameDeniedWorld "/root/tiny-container").1 = none
      ∧ (runShell hostnameDeniedWorld "/root/tiny-container" "ts").ops
          = [Op.lookPath "ts", Op.sys (KernelCall.sethostname "tinyhost")]
            ++ (pivotSequence "/root/tiny-container").map Op.sys
      ∧ startedEnvs (runShell hostnameDeniedWorld "/root/tiny-container" "ts").ops = []
      ∧ (runShell hostnameDeniedWorld "/root/tiny-container" "ts").exit = some 1
      ∧ (runShell hostnameDeniedWorld "/root/tiny-container" "ts").out
          = ["Launching shell session...\n", "\troot.: /root/tiny-container\n", "\tshell: ts\n",
             "Error setting hostname - operation not permitted\n",
             "Error running the shell ts - exec: \"ts\": executable file not found in $PATH\n"]
      ∧ (runShell hostnameDeniedWorld.withHostnameOk "/root/tiny-container" "ts").exit = some 1
      ∧ startedEnvs (runShell hostnameDeniedWorld.withHostnameOk "/root/tiny-container" "ts").ops
          = []
      ∧ (runShell hostnameDeniedWorld "/root/tiny-container" "./ts").ops
          = [Op.sys (KernelCall.sethostname "tinyhost")]
            ++ (pivotSequence "/root/tiny-container").map Op.sys
            ++ [Op.startProcess "./ts" ["./ts"] ["tiny_demo=something tiny"] none]
      ∧ (runShell hostnameDeniedWorld "/root/tiny-container" "./ts").exit = none := by
  decide

/-- C1, as the code has it. With x-action = create, non-empty root and shell,
spawn and pivot succeeding and the target program started and exiting with
status n: the Initializer exits with 0 when n = 0 and with 1 for every other
n, and the Launcher exits with the status of the Initializer, so with 0 when
n = 0 and with 1 otherwise. -/
theorem launcher_exit_status (fuel : Nat) (w : World) (argv0 root shell : String) (n : Nat)
    (tout : List String) (hr : root ≠ "") (hs : shell ≠ "")
    (hclone : w.clone (some (spawnAttr w)) = none) (hpivot : (pivotRoot w root).1 = none)
    (hcmd : (execCommand w shell []).1.Err = none)
    (htarget : w.target (execCommand w shell []).1.Path [shell] ["tiny_demo=something tiny"]
      = .ok (n, tout)) :
    ((runShell w root shell).thenExit 0).exit = (if n = 0 then 0 else 1)
      ∧ (main (runProgram (fuel + 1) w) w { root := root, shell := shell, xaction := "create" }).map
          (fun p => p.exit) = some (if n = 0 then 0 else 1)
      ∧ (main (runProgram (fuel + 1) w) w { root := root, shell := shell, xaction := "create" }).map
          (fun p => p.exit) = some ((runShell w root shell).thenExit 0).exit
      ∧ (runProgram (fuel + 2) w [argv0, "-root=" ++ root, "-shell=" ++ shell]).map
          (fun p => p.exit) = some (if n = 0 then 0 else 1) := by
  have hinit : ((runShell w root shell).thenExit 0).exit = (if n = 0 then 0 else 1) := by
    simp only [Result.thenExit, runShell_exit, hpivot, hcmd, execCommand_args, htarget]
    by_cases hn : n = 0 <;> simp [hn]
  have hmain : (main (runProgram (fuel + 1) w) w
      { root := root, shell := shell, xaction := "create" }).map (fun p => p.exit)
        = some (if n = 0 then 0 else 1) := by
    obtain ⟨r, hcreate, hexit⟩ := createContainer_exit fuel w root shell
    have hchild : (childProc w root shell).exit = (if n = 0 then 0 else 1) := by
      simp only [childProc, hr, hs, or_self, if_false]
      exact hinit
    rw [hclone, hchild] at hexit
    simp only [main, hr, hs, or_self, if_false, if_true, hcreate, Option.map_some',
      Result.thenExit, hexit]
    by_cases hn : n = 0 <;> simp [hn]
  refine ⟨hinit, hmain, ?_, ?_⟩
  · rw [hmain, hinit]
  · rw [show fuel + 2 = (fuel + 1) + 1 from rfl]
    simp only [runProgram, flagParse_userArgs]
    exact hmain

theorem launcher_exit_status_witness :
    ((runShell (exitWorld 7) "/tmp/fakeroot" "/bin/prog").thenExit 0).exit
        = (if 7 = 0 then 0 else 1)
      ∧ (main (runProgram (0 + 1) (exitWorld 7)) (exitWorld 7)
          { root := "/tmp/fakeroot", shell := "/bin/prog", xaction := "create" }).map
          (fun p => p.exit) = some (if 7 = 0 then 0 else 1)
      ∧ (main (runProgram (0 + 1) (exitWorld 7)) (exitWorld 7)
          { root := "/tmp/fakeroot", shell := "/bin/prog", xaction := "create" }).map
          (fun p => p.exit)
          = some ((runShell (exitWorld 7) "/tmp/fakeroot" "/bin/prog").thenExit 0).exit
      ∧ (runProgram (0 + 2) (exitWorld 7)
          ["tc", "-root=" ++ "/tmp/fakeroot", "-shell=" ++ "/bin/prog"]).map
          (fun p => p.exit) = some (if 7 = 0 then 0 else 1) :=
  launcher_exit_status 0 (exitWorld 7) "tc" "/tmp/fakeroot" "/bin/prog" 7 ["hello\n"]
    (by decide) (by decide) rfl (by decide) (by decide) (by decide)

/-- C1 as stated fails: the target exits with status 7, the spawn and every
pivot step succeed, and the Launcher exits with status 1, not 7; the
Initializer exits with status 1 as well. -/
theorem launcher_exit_status_counterexample :
    (exitWorld 7).target "/bin/prog" ["/bin/prog"] ["tiny_demo=something tiny"]
        = .ok (7, ["hello\n"])
      ∧ (pivotRoot (exitWorld 7) "/tmp/fakeroot").1 = none
      ∧ (exitWorld 7).clone (some (spawnAttr (exitWorld 7))) = none
      ∧ ((runShell (exitWorld 7) "/tmp/fakeroot" "/bin/prog").thenExit 0).exit = 1
      ∧ (main (runProgram 1 (exitWorld 7)) (exitWorld 7)
          { root := "/tmp/fakeroot", shell := "/bin/prog", xaction := "create" }).map
          (fun p => p.exit) = some 1
      ∧ ¬ ((main (runProgram 1 (exitWorld 7)) (exitWorld 7)
          { root := "/tmp/fakeroot", shell := "/bin/prog", xaction := "create" }).map
          (fun p => p.exit) = some 7) := by
  decide

/-- C8. For non-empty root and shell, the argument list `createContainer`
passes to the re-invoked binary is `-root=`root, `-shell=`shell,
`-x-action=launch-shell`; parsing it with the flag definitions of `init` gives
back the same root and shell with x-action = launch-shell; and `main` on those
flags is `runShell root shell` followed by exit 0, whatever a re-invocation
would do (so neither `createContainer` nor the help path): its first output
line is the one of `runShell`. -/
theorem reexec_round_trip (fuel : Nat) (w : World) (root shell : String)
    (hr : root ≠ "") (hs : shell ≠ "") :
    (∃ r env attr, createContainer (runProgram (fuel + 1) w) w root shell = some r
        ∧ r.ops = [Op.startProcess "/proc/self/exe"
            ["/proc/self/exe", "-root=" ++ root, "-shell=" ++ shell, "-x-action=launch-shell"]
            env attr])
      ∧ flagParse
          ["/proc/self/exe", "-root=" ++ root, "-shell=" ++ shell, "-x-action=launch-shell"]
          = .ok { root := root, shell := shell, xaction := "launch-shell" }
      ∧ (∀ selfExe, main selfExe w { root := root, shell := shell, xaction := "launch-shell" }
          = some ((runShell w root shell).thenExit 0))
      ∧ runProgram (fuel + 1) w
          ["/proc/self/exe", "-root=" ++ root, "-shell=" ++ shell, "-x-action=launch-shell"]
          = some ((runShell w root shell).thenExit 0)
      ∧ ((runShell w root shell).thenExit 0).out.head? = some "Launching shell session...\n"
      ∧ printHelp.head? ≠ some "Launching shell session...\n" := by
  have hx : ¬ ("launch-shell" = "create") := by decide
  refine ⟨?_, flagParse_childArgs _ root shell, ?_, ?_, runShell_out_head w root shell, by decide⟩
  · obtain ⟨r, hcreate, hops⟩ := createContainer_spawn fuel w root shell
    exact ⟨r, _, _, hcreate, hops⟩
  · intro selfExe
    simp [main, hr, hs, hx]
  · rw [runProgram_childArgs]
    simp [hr, hs]

theorem reexec_round_trip_witness :
    flagParse ["/proc/self/exe", "-root=" ++ "/tmp/fakeroot", "-shell=" ++ "./ts",
        "-x-action=launch-shell"]
        = .ok { root := "/tmp/fakeroot", shell := "./ts", xaction := "launch-shell" }
      ∧ runProgram (0 + 1) (exitWorld 0)
          ["/proc/self/exe", "-root=" ++ "/tmp/fakeroot", "-shell=" ++ "./ts",
            "-x-action=launch-shell"]
          = some ((runShell (exitWorld 0) "/tmp/fakeroot" "./ts").thenExit 0) :=
  ⟨(reexec_round_trip 0 (exitWorld 0) "/tmp/fakeroot" "./ts" (by decide) (by decide)).2.1,
   (reexec_round_trip 0 (exitWorld 0) "/tmp/fakeroot" "./ts" (by decide) (by decide)).2.2.2.1⟩

/-- C10, at a bare name. For the shell `ts` (no separator) and every world,
the first operation of `runShell` is the lookup of `ts` made by `exec.Command`
against the host (under the inherited environment), before the hostname call
and before the first step of the pivot. In a world where the host lookup
fails and every pivot step succeeds the target is never started and the
process exits with status 1. A shell given with a separator (`./ts`) is not
looked up: its only resolution is the start that follows the pivot. -/
theorem runShell_bare_name_resolved_before_pivot (w : World) :
    (∃ rest, (runShell w "/root/tiny-container" "ts").ops
        = Op.lookPath "ts" :: Op.sys (KernelCall.sethostname "tinyhost")
          :: Op.sys (KernelCall.mount "/root/tiny-container" "/root/tiny-container" ""
              (MS_BIND ||| MS_REC) "") :: rest)
      ∧ (runShell (exitWorld 0) "/root/tiny-container" "ts").ops
          = [Op.lookPath "ts", Op.sys (KernelCall.sethostname "tinyhost")]
            ++ (pivotSequence "/root/tiny-container").map Op.sys
      ∧ (runShell (exitWorld 0) "/root/tiny-container" "ts").exit = some 1
      ∧ (runShell (exitWorld 0) "/root/tiny-container" "./ts").ops
          = [Op.sys (KernelCall.sethostname "tinyhost")]
            ++ (pivotSequence "/root/tiny-container").map Op.sys
            ++ [Op.startProcess "./ts" ["./ts"] ["tiny_demo=something tiny"] none] := by
  refine ⟨?_, by decide, by decide, by decide⟩
  have hb : filepathBase "ts" = "ts" := by decide
  have hexec : (execCommand w "ts" []).2 = [Op.lookPath "ts"] := by
    unfold execCommand
    rw [if_pos hb]
    split <;> rfl
  obtain ⟨k, hk⟩ : ∃ rest, (pivotRoot w "/root/tiny-container").2
      = Op.sys (KernelCall.mount "/root/tiny-container" "/root/tiny-container" ""
          (MS_BIND ||| MS_REC) "") :: rest := by
    simp only [pivotRoot]
    repeat' split
    all_goals exact ⟨_, rfl⟩
  rw [runShell_ops, hexec, hk]
  exact ⟨_, rfl⟩

end TinyContainer
